import Mathlib

/-!
Verification of the token-lifecycle core of `src/index.js` (xashmarkets).

The program is a single-file Express server; its stateful core is a token
store persisted as one JSON document (`tokens.json`), an OAuth callback
handler that inserts credential records, a `/likes/:userId` handler, and a
poller (`fetchLikedTweetsForAllUsers`) that iterates all records.

Shallow embedding conventions:
* JS numbers holding timestamps and second counts are modelled as `Int`.
* The file system is a single optional document (`Fs`). The contents of
  `tokens.json` are modelled by `Doc`: either a document that parses as an
  array of credential records (`Doc.good l`, the image of
  `JSON.stringify(l)`; `JSON.parse` of such a document recovers `l` because
  records are plain objects of strings and numbers), or a document that is
  unreadable or unparsable (`Doc.bad`, covering both non-ENOENT read errors
  and `JSON.parse` failures, which land in the same catch branch).
* External network calls (`client.refreshOAuth2Token`,
  `client.v2.userLikedTweets`) are oracles supplied in a `PollEnv`; a throw
  from the library is an `Except.error`.
* Stateful functions take and return the `Fs` explicitly.
-/

/-- A Credential Record, as pushed at src/index.js line 144:
`{ accessToken, refreshToken, expiresIn, userId, username, name, createdAt }`. -/
structure Token where
  accessToken : String
  refreshToken : String
  expiresIn : Int
  userId : String
  username : String
  name : String
  createdAt : Int
deriving DecidableEq, Repr

/-- The persisted `tokens.json` contents: either a document that parses as a
record array, or an unreadable/unparsable document. -/
inductive Doc where
  | good (records : List Token)
  | bad
deriving DecidableEq, Repr

/-- The file-system state visible to the program: the optional `tokens.json`
document (`none` models ENOENT). -/
structure Fs where
  file : Option Doc
deriving DecidableEq, Repr

/-- `loadTokens` (src/index.js lines 58-70): read and parse the document;
on ENOENT write an empty array document and return `[]`; on any other
read/parse error log and return `[]`, leaving the document as it is. -/
def loadTokens (fs : Fs) : List Token × Fs :=
  match fs.file with
  | none => ([], ⟨some (Doc.good [])⟩)
  | some (Doc.good l) => (l, fs)
  | some Doc.bad => ([], fs)

/-- `saveTokens` (src/index.js lines 72-78): overwrite the document with the
serialization of `tokens` (`JSON.stringify` of plain records never throws). -/
def saveTokens (tokens : List Token) (_fs : Fs) : Fs :=
  ⟨some (Doc.good tokens)⟩

/-- The expiry test used verbatim at src/index.js line 178 (likes handler)
and line 246 (poller): `Date.now() >= user.createdAt + user.expiresIn * 1000`. -/
def isExpired (now : Int) (t : Token) : Bool :=
  now ≥ t.createdAt + t.expiresIn * 1000

/-- Result of a successful `client.refreshOAuth2Token` call. -/
structure RefreshResult where
  accessToken : String
  refreshToken : String
  expiresIn : Int
deriving DecidableEq, Repr

/-- A liked tweet with the requested `tweet.fields`. -/
structure Tweet where
  id : String
  text : String
  created_at : String
  author_id : String
deriving DecidableEq, Repr

/-- Oracles for the external world during one request / one poller cycle:
the current clock and the two Twitter API calls the token lifecycle uses.
`userLikedTweets` takes the access token used to build the client and the
target userId; its `Option` payload is `tweets.data` (possibly absent). -/
structure PollEnv where
  now : Int
  refreshOAuth2Token : String → Except String RefreshResult
  userLikedTweets : String → String → Except String (Option (List Tweet))

/-- `refreshAccessToken` (src/index.js lines 224-232): call
`client.refreshOAuth2Token`; on any throw, log and return `null`. -/
def refreshAccessToken (env : PollEnv) (refreshToken : String) : Option RefreshResult :=
  match env.refreshOAuth2Token refreshToken with
  | Except.ok r => some r
  | Except.error _ => none

/-- Whether the liked-tweets fetch for `userId` with `accessToken` succeeds
(the try block at src/index.js lines 269-287 completes without throwing). -/
def fetchOutcome (env : PollEnv) (accessToken userId : String) : Bool :=
  match env.userLikedTweets accessToken userId with
  | Except.ok _ => true
  | Except.error _ => false

/-- What the poller's loop body did for one user: the refresh failed and the
user was skipped with `continue` (line 254), or the liked-tweets fetch was
attempted for the user (`ok` records whether it threw). -/
inductive PollEvent where
  | skipped (userId : String)
  | fetched (userId : String) (ok : Bool)
deriving DecidableEq, Repr

/-- Whether a `PollEvent` is a skip. -/
def PollEvent.isSkipped : PollEvent → Bool
  | PollEvent.skipped _ => true
  | PollEvent.fetched _ _ => false

/-- The loop body of `fetchLikedTweetsForAllUsers` (src/index.js lines
243-291). The indexed for-loop mutates `tokens[i]` in place; here `done` is
the already-processed prefix `tokens[0..i)`, `user :: rest` the remainder,
so the full current array is `done ++ user :: rest` and the in-place update
`tokens[i] = ...` is `done ++ updated :: rest`. For each user: check expiry;
if expired, refresh, and on failure `continue` (skip); on success overwrite
the record's tokens and `createdAt` and `saveTokens` immediately; then
attempt the liked-tweets fetch inside a try/catch. -/
def pollGo (env : PollEnv) : List Token → Fs → List Token → List Token × Fs × List PollEvent
  | done, fs, [] => (done, fs, [])
  | done, fs, user :: rest =>
    if isExpired env.now user then
      match refreshAccessToken env user.refreshToken with
      | none =>
        let r := pollGo env (done ++ [user]) fs rest
        (r.1, r.2.1, PollEvent.skipped user.userId :: r.2.2)
      | some refreshed =>
        let updated : Token :=
          { user with
            accessToken := refreshed.accessToken
            refreshToken := refreshed.refreshToken
            expiresIn := refreshed.expiresIn
            createdAt := env.now }
        let fs1 := saveTokens (done ++ updated :: rest) fs
        let outcome := fetchOutcome env updated.accessToken user.userId
        let r := pollGo env (done ++ [updated]) fs1 rest
        (r.1, r.2.1, PollEvent.fetched user.userId outcome :: r.2.2)
    else
      let outcome := fetchOutcome env user.accessToken user.userId
      let r := pollGo env (done ++ [user]) fs rest
      (r.1, r.2.1, PollEvent.fetched user.userId outcome :: r.2.2)

/-- `fetchLikedTweetsForAllUsers` (src/index.js lines 234-292): load all
records, return early if there are none, otherwise run the per-user loop.
Returns the final record array, the final file state, and one event per
processed user. -/
def fetchLikedTweetsForAllUsers (env : PollEnv) (fs : Fs) :
    List Token × Fs × List PollEvent :=
  let p := loadTokens fs
  if p.1.length = 0 then (p.1, p.2, [])
  else pollGo env [] p.2 p.1

/-- The HTTP outcomes of `GET /likes/:userId` (src/index.js lines 168-222).
The 500 branch at line 200 (a throw while refreshing) is unreachable here
because `refreshAccessToken` catches all throws and returns `null`. -/
inductive LikesResponse where
  | notFound
  | refreshFailed (userId : String)
  | ok (userId : String) (likes : List Tweet) (count : Nat)
  | fetchError (userId : String) (msg : String)
deriving DecidableEq, Repr

/-- The HTTP status code of each `/likes/:userId` outcome. -/
def LikesResponse.status : LikesResponse → Nat
  | LikesResponse.notFound => 404
  | LikesResponse.refreshFailed _ => 401
  | LikesResponse.ok _ _ _ => 200
  | LikesResponse.fetchError _ _ => 500

/-- The fetch-and-respond tail of the likes handler (src/index.js lines
204-221): `likes` is `tweets.data || []`, `count` is its length
(`tweets.data ? tweets.data.length : 0`); a throw becomes a 500. -/
def likesFetch (env : PollEnv) (accessToken userId : String) : LikesResponse :=
  match env.userLikedTweets accessToken userId with
  | Except.ok data => LikesResponse.ok userId (data.getD []) (data.getD []).length
  | Except.error msg => LikesResponse.fetchError userId msg

/-- The `GET /likes/:userId` handler (src/index.js lines 168-222): load
records, find the user (404 if absent); if the record is expired, refresh,
answering 401 on refresh failure, otherwise overwrite the record at its
index and save; finally fetch liked tweets with the current access token. -/
def likesHandler (env : PollEnv) (userId : String) (fs : Fs) : LikesResponse × Fs :=
  let p := loadTokens fs
  let tokens := p.1
  let fs1 := p.2
  match tokens.find? (fun t => t.userId == userId) with
  | none => (LikesResponse.notFound, fs1)
  | some user =>
    if isExpired env.now user then
      match refreshAccessToken env user.refreshToken with
      | none => (LikesResponse.refreshFailed userId, fs1)
      | some refreshed =>
        let index := tokens.findIdx (fun t => t.userId == userId)
        let tokens1 := tokens.set index
          { user with
            accessToken := refreshed.accessToken
            refreshToken := refreshed.refreshToken
            expiresIn := refreshed.expiresIn
            createdAt := env.now }
        let fs2 := saveTokens tokens1 fs1
        (likesFetch env refreshed.accessToken userId, fs2)
    else
      (likesFetch env user.accessToken userId, fs1)

/-- The store update of the `/auth/callback` handler (src/index.js lines
123-153) after a successful code exchange that yielded the record `newRec`:
load the records; if none has `newRec`'s userId, push it and save. The
returned `Bool` is whether `saveTokens` was called. -/
def authCallback (fs : Fs) (newRec : Token) : Fs × Bool :=
  let p := loadTokens fs
  let tokens := p.1
  let fs1 := p.2
  if tokens.any (fun t => t.userId == newRec.userId) then (fs1, false)
  else (saveTokens (tokens ++ [newRec]) fs1, true)

/-- The records currently readable from the store. -/
def storeRecords (fs : Fs) : List Token :=
  (loadTokens fs).1

/-- The store invariant: no two records share a `userId`. -/
def UniqueUserIds (l : List Token) : Prop :=
  l.Pairwise (fun a b => a.userId ≠ b.userId)

/-- The environment variables the program reads at startup
(src/index.js lines 13-21), each possibly unset. -/
structure ProcessEnv where
  clientId : Option String
  clientSecret : Option String
  sessionSecret : Option String
  redirectUri : Option String
  port : Option String
deriving DecidableEq, Repr

/-- JS falsiness of an optional environment string: unset or empty. -/
def falsy (o : Option String) : Bool :=
  match o with
  | none => true
  | some s => s == ""

/-- The startup validation (src/index.js lines 21-24): the process exits
iff `!CLIENT_ID || !CLIENT_SECRET || !process.env.SESSION_SECRET`. -/
def startupExits (e : ProcessEnv) : Bool :=
  falsy e.clientId || falsy e.clientSecret || falsy e.sessionSecret

/-- `REDIRECT_URI` (src/index.js line 18): the environment value, or the
hardcoded default when unset or empty. -/
def REDIRECT_URI (e : ProcessEnv) : String :=
  match e.redirectUri with
  | some s => if s == "" then "https://xashmarkets.onrender.com/callback" else s
  | none => "https://xashmarkets.onrender.com/callback"

/-- `PORT` (src/index.js line 13): the environment value, or `3000`. -/
def PORT (e : ProcessEnv) : String :=
  match e.port with
  | some s => if s == "" then "3000" else s
  | none => "3000"

/-- `allowedOrigins` (src/index.js lines 27-31): a hardcoded list, not read
from the environment. -/
def allowedOrigins : List String :=
  ["https://dev.fun", "https://cdn.dev.fun", "https://dev.fun/p/93ea680b334bd848c300"]

/-- The decision the poller's loop body makes for one user, as a function of
that user's record alone (the body reads only `tokens[i]`, which earlier
iterations never touch). Used to state the per-user isolation property. -/
def pollEventOf (env : PollEnv) (user : Token) : PollEvent :=
  if isExpired env.now user then
    match refreshAccessToken env user.refreshToken with
    | none => PollEvent.skipped user.userId
    | some r => PollEvent.fetched user.userId (fetchOutcome env r.accessToken user.userId)
  else
    PollEvent.fetched user.userId (fetchOutcome env user.accessToken user.userId)

/-! Concrete fixtures used by the witness theorems. -/

/-- A record whose refresh token `testEnv` rejects. -/
def tokA : Token := ⟨"atA", "rtA", 7200, "u1", "alice", "Alice", 1000⟩

/-- A second record with the same `userId` as `tokA`. -/
def tokB : Token := ⟨"atB", "rtB", 3600, "u1", "ally", "Ally", 2000⟩

/-- A record for a second user, whose refresh token `testEnv` accepts. -/
def tokC : Token := ⟨"atC", "rtC", 7200, "u2", "bob", "Bob", 1000⟩

/-- The token pair `testEnv` hands out on a successful refresh. -/
def testRefreshed : RefreshResult := ⟨"atNew", "rtNew", 7200⟩

/-- A concrete environment: the clock is past every fixture's expiry, the
refresh endpoint rejects `tokA`'s refresh token and accepts all others, and
the liked-tweets endpoint always succeeds with no data. -/
def testEnv : PollEnv where
  now := 10000000
  refreshOAuth2Token := fun rt =>
    if rt == "rtA" then Except.error "invalid_grant" else Except.ok testRefreshed
  userLikedTweets := fun _ _ => Except.ok none

/-- Events of the loop depend only on the remaining users, not on the
processed prefix or the file state. -/
theorem pollGo_events (env : PollEnv) (l : List Token) :
    ∀ done fs, (pollGo env done fs l).2.2 = l.map (pollEventOf env) := by
  induction l with
  | nil => intro done fs; simp [pollGo]
  | cons u rest ih =>
    intro done fs
    cases h : isExpired env.now u with
    | false => simp [pollGo, pollEventOf, h, ih]
    | true =>
      cases hr : refreshAccessToken env u.refreshToken with
      | none => simp [pollGo, pollEventOf, h, hr, ih]
      | some r => simp [pollGo, pollEventOf, h, hr, ih]

/-- C1: the expiry test used by both the poller and the `/likes/:userId`
handler holds exactly when `now >= createdAt + expiresIn * 1000`. -/
theorem isExpired_iff (now : Int) (t : Token) :
    isExpired now t = true ↔ now ≥ t.createdAt + t.expiresIn * 1000 := by
  simp [isExpired]

/-- C3: `load()` on a missing document returns the empty sequence and
creates a valid empty document, so a subsequent `load()` also returns the
empty sequence and changes nothing. -/
theorem loadTokens_missing (fs : Fs) (h : fs.file = none) :
    loadTokens fs = ([], ⟨some (Doc.good [])⟩) ∧
    loadTokens (loadTokens fs).2 = ([], (loadTokens fs).2) := by
  simp [loadTokens, h]

theorem loadTokens_missing_witness :
    loadTokens ⟨none⟩ = ([], ⟨some (Doc.good [])⟩) ∧
    loadTokens (loadTokens ⟨none⟩).2 = ([], (loadTokens ⟨none⟩).2) :=
  loadTokens_missing ⟨none⟩ rfl

/-- C4: for any document produced by `save`, the round-trip `save(load())`
is idempotent: loading after the round-trip yields the same sequence of
records as loading before it. -/
theorem save_load_roundtrip (l : List Token) (fs0 : Fs) :
    (loadTokens (saveTokens (loadTokens (saveTokens l fs0)).1
        (loadTokens (saveTokens l fs0)).2)).1
      = (loadTokens (saveTokens l fs0)).1 := by
  simp [loadTokens, saveTokens]

/-- C10: on a read or parse failure other than an absent document, `load()`
propagates no error: it returns the empty sequence and leaves the document
untouched. -/
theorem loadTokens_parse_error (fs : Fs) (h : fs.file = some Doc.bad) :
    loadTokens fs = ([], fs) := by
  simp [loadTokens, h]

theorem loadTokens_parse_error_witness :
    loadTokens ⟨some Doc.bad⟩ = ([], ⟨some Doc.bad⟩) :=
  loadTokens_parse_error ⟨some Doc.bad⟩ rfl

/-- An environment with credentials and session secret set but redirect URI
and port unset. -/
def envNoRedirect : ProcessEnv := ⟨some "id", some "secret", some "sess", none, none⟩

/-- C8 counterexample: with client id, client secret and session secret set
but redirect URI and port unset, the process does not exit; the redirect
URI and port fall back to hardcoded defaults, so they are not required
environment configuration (and the CORS allow-list is a hardcoded constant,
read from no environment variable at all). -/
theorem startup_env_counterexample :
    startupExits envNoRedirect = false ∧
    envNoRedirect.redirectUri = none ∧
    envNoRedirect.port = none ∧
    REDIRECT_URI envNoRedirect = "https://xashmarkets.onrender.com/callback" ∧
    PORT envNoRedirect = "3000" ∧
    allowedOrigins = ["https://dev.fun", "https://cdn.dev.fun",
      "https://dev.fun/p/93ea680b334bd848c300"] :=
  ⟨rfl, rfl, rfl, rfl, rfl, rfl⟩

/-- C8 amended: only client id, client secret and session secret are
required; the process exits at startup exactly when one of them is unset or
empty, while an unset redirect URI or port falls back to a default. -/
theorem startup_requires_credentials (e : ProcessEnv) :
    (startupExits e = true ↔
      (falsy e.clientId = true ∨ falsy e.clientSecret = true ∨
        falsy e.sessionSecret = true)) ∧
    (e.redirectUri = none → REDIRECT_URI e = "https://xashmarkets.onrender.com/callback") ∧
    (e.port = none → PORT e = "3000") := by
  refine ⟨?_, ?_, ?_⟩
  · simp [startupExits, or_assoc]
  · intro h; simp [REDIRECT_URI, h]
  · intro h; simp [PORT, h]

theorem startup_requires_credentials_witness :
    REDIRECT_URI ⟨some "a", some "b", some "c", none, none⟩
      = "https://xashmarkets.onrender.com/callback" ∧
    PORT ⟨some "a", some "b", some "c", none, none⟩ = "3000" :=
  ⟨(startup_requires_credentials ⟨some "a", some "b", some "c", none, none⟩).2.1 rfl,
   (startup_requires_credentials ⟨some "a", some "b", some "c", none, none⟩).2.2 rfl⟩

/-- C9: a successful callback for a userId that already has a record leaves
the store unchanged and performs no save. -/
theorem authCallback_existing (fs : Fs) (l : List Token) (newRec : Token)
    (hfs : fs.file = some (Doc.good l))
    (hmem : ∃ t ∈ l, t.userId = newRec.userId) :
    authCallback fs newRec = (fs, false) := by
  have hany : l.any (fun t => t.userId == newRec.userId) = true := by
    rcases hmem with ⟨t, ht, he⟩
    exact List.any_eq_true.2 ⟨t, ht, by simp [he]⟩
  simp [authCallback, loadTokens, hfs, hany]

theorem authCallback_existing_witness :
    authCallback ⟨some (Doc.good [tokA])⟩ tokB = (⟨some (Doc.good [tokA])⟩, false) :=
  authCallback_existing ⟨some (Doc.good [tokA])⟩ [tokA] tokB rfl
    ⟨tokA, by simp, rfl⟩

/-- One callback preserves the at-most-one-record-per-userId invariant. -/
theorem authCallback_preserves_unique (fs : Fs) (newRec : Token)
    (h : UniqueUserIds (storeRecords fs)) :
    UniqueUserIds (storeRecords (authCallback fs newRec).1) := by
  cases hf : fs.file with
  | none =>
    simp [authCallback, storeRecords, loadTokens, saveTokens, hf, UniqueUserIds]
  | some d =>
    cases d with
    | bad =>
      simp [authCallback, storeRecords, loadTokens, saveTokens, hf, UniqueUserIds]
    | good l =>
      cases hany : l.any (fun t => t.userId == newRec.userId) with
      | true =>
        simpa [authCallback, storeRecords, loadTokens, hf, hany, UniqueUserIds]
          using by simpa [storeRecords, loadTokens, hf, UniqueUserIds] using h
      | false =>
        have hall : ∀ t ∈ l, t.userId ≠ newRec.userId := by
          intro t ht hcontra
          have htrue : l.any (fun t => t.userId == newRec.userId) = true :=
            List.any_eq_true.2 ⟨t, ht, by simp [hcontra]⟩
          simp [hany] at htrue
        have hl : UniqueUserIds l := by
          simpa [storeRecords, loadTokens, hf, UniqueUserIds] using h
        simp only [authCallback, storeRecords, loadTokens, saveTokens, hf, hany,
          UniqueUserIds] at *
        exact List.pairwise_append.2
          ⟨hl, List.pairwise_singleton _ _,
            fun a ha b hb => by
              have : b = newRec := by simpa using hb
              exact this ▸ hall a ha⟩

/-- C2: from any store satisfying the uniqueness invariant, any sequence of
successful callback invocations (repeats included) leaves at most one
record per userId. -/
theorem callback_store_unique (fs : Fs) (recs : List Token)
    (h : UniqueUserIds (storeRecords fs)) :
    UniqueUserIds (storeRecords
      (recs.foldl (fun f r => (authCallback f r).1) fs)) := by
  induction recs generalizing fs with
  | nil => simpa using h
  | cons r rs ih =>
    exact ih ((authCallback fs r).1) (authCallback_preserves_unique fs r h)

theorem callback_store_unique_witness :
    UniqueUserIds (storeRecords
      ([tokA, tokB, tokC].foldl (fun f r => (authCallback f r).1) ⟨none⟩)) :=
  callback_store_unique ⟨none⟩ [tokA, tokB, tokC]
    (by simp [storeRecords, loadTokens, UniqueUserIds])

/-- C5: one poller cycle produces exactly one event per stored user, in
store order; a user is skipped exactly when its record is expired and its
refresh fails, and every other user's fetch is still attempted — no
per-user failure aborts the batch (the cycle is a total function). -/
theorem poller_failure_isolation (env : PollEnv) (tokens : List Token) (fs : Fs)
    (hfs : fs.file = some (Doc.good tokens)) :
    (fetchLikedTweetsForAllUsers env fs).2.2 = tokens.map (pollEventOf env) ∧
    ∀ u ∈ tokens,
      (isExpired env.now u = true ∧ refreshAccessToken env u.refreshToken = none →
        pollEventOf env u = PollEvent.skipped u.userId) ∧
      ((isExpired env.now u = true → refreshAccessToken env u.refreshToken ≠ none) →
        (pollEventOf env u).isSkipped = false) := by
  constructor
  · by_cases h0 : tokens.length = 0
    · have : tokens = [] := List.length_eq_zero.1 h0
      simp [fetchLikedTweetsForAllUsers, loadTokens, hfs, this]
    · simp [fetchLikedTweetsForAllUsers, loadTokens, hfs, h0, pollGo_events]
  · intro u _
    constructor
    · rintro ⟨he, hr⟩
      simp [pollEventOf, he, hr]
    · intro hok
      cases he : isExpired env.now u with
      | false => simp [pollEventOf, he, PollEvent.isSkipped]
      | true =>
        cases hr : refreshAccessToken env u.refreshToken with
        | none => exact absurd hr (hok he)
        | some r => simp [pollEventOf, he, hr, PollEvent.isSkipped]

theorem poller_failure_isolation_witness :
    (fetchLikedTweetsForAllUsers testEnv ⟨some (Doc.good [tokA, tokC])⟩).2.2
      = [tokA, tokC].map (pollEventOf testEnv) :=
  (poller_failure_isolation testEnv [tokA, tokC] ⟨some (Doc.good [tokA, tokC])⟩ rfl).1

/-- C6: when a user's record is expired and its refresh succeeds, the loop
body overwrites that record in place with the new access token, refresh
token and expiry and a `createdAt` equal to the refresh time, persists the
updated store via `save`, and only then moves on to the remaining users. -/
theorem poller_refresh_updates_and_saves (env : PollEnv) (done : List Token)
    (fs : Fs) (user : Token) (rest : List Token) (r : RefreshResult)
    (hexp : isExpired env.now user = true)
    (href : refreshAccessToken env user.refreshToken = some r) :
    pollGo env done fs (user :: rest) =
      (let updated : Token :=
        { user with
          accessToken := r.accessToken
          refreshToken := r.refreshToken
          expiresIn := r.expiresIn
          createdAt := env.now }
      let fs1 := saveTokens (done ++ updated :: rest) fs
      let tail := pollGo env (done ++ [updated]) fs1 rest
      (tail.1, tail.2.1,
        PollEvent.fetched user.userId
          (fetchOutcome env r.accessToken user.userId) :: tail.2.2)) := by
  simp [pollGo, hexp, href]

theorem poller_refresh_updates_and_saves_witness :
    pollGo testEnv [] ⟨some (Doc.good [tokC])⟩ [tokC] =
      (let updated : Token :=
        { tokC with
          accessToken := testRefreshed.accessToken
          refreshToken := testRefreshed.refreshToken
          expiresIn := testRefreshed.expiresIn
          createdAt := testEnv.now }
      let fs1 := saveTokens ([] ++ updated :: []) ⟨some (Doc.good [tokC])⟩
      let tail := pollGo testEnv ([] ++ [updated]) fs1 []
      (tail.1, tail.2.1,
        PollEvent.fetched tokC.userId
          (fetchOutcome testEnv testRefreshed.accessToken tokC.userId) :: tail.2.2)) :=
  poller_refresh_updates_and_saves testEnv [] ⟨some (Doc.good [tokC])⟩ tokC []
    testRefreshed (by decide) (by decide)

/-- C7: with a store holding exactly one expired record whose refresh
fails, `GET /likes/:userId` answers with the 401 refresh-failure response
and the file state is returned unchanged — nothing is modified or saved. -/
theorem likes_expired_refresh_fail (env : PollEnv) (u : Token) (fs : Fs)
    (hfs : fs.file = some (Doc.good [u]))
    (hexp : isExpired env.now u = true)
    (href : refreshAccessToken env u.refreshToken = none) :
    likesHandler env u.userId fs = (LikesResponse.refreshFailed u.userId, fs) ∧
    (likesHandler env u.userId fs).1.status = 401 := by
  have hfind : ([u].find? (fun t => t.userId == u.userId)) = some u := by simp
  constructor
  · simp [likesHandler, loadTokens, hfs, hfind, hexp, href]
  · simp [likesHandler, loadTokens, hfs, hfind, hexp, href, LikesResponse.status]

theorem likes_expired_refresh_fail_witness :
    likesHandler testEnv tokA.userId ⟨some (Doc.good [tokA])⟩
      = (LikesResponse.refreshFailed tokA.userId, ⟨some (Doc.good [tokA])⟩) ∧
    (likesHandler testEnv tokA.userId ⟨some (Doc.good [tokA])⟩).1.status = 401 :=
  likes_expired_refresh_fail testEnv tokA ⟨some (Doc.good [tokA])⟩ rfl
    (by decide) (by decide)
